import Mathlib

/-!
Verification development for the Community-Loan-Fund identity backend.

The definitions below are a shallow embedding of the Python sources:
  * `src/utils/app_settings.py`  — settings store (cache over persisted key/values)
  * `src/utils/responses.py`     — the unified HTTP response shapes
  * `src/utils/schema_validator.py` and `src/utils/schemas.py` — request-body schemas
  * `src/handlers/settings.py`   — GET /settings and PUT /settings handlers
  * `src/handlers/login.py`      — POST /auth/login handler

Machine-level details that the properties do not depend on (DynamoDB item layout,
the `setting_type` attribute stored next to each value, JSON wire encoding,
authentication middleware that runs before the handlers, rate limiting) are
abstracted; storage is modelled as an association list keyed by strings together
with a reachability flag, and each Python function that can raise is modelled
with `Except` or an explicit success flag.
-/

/-- A persisted setting value: the settings table holds booleans, integers and
strings (`DEFAULT_SETTINGS` in `src/utils/app_settings.py`). -/
inductive SettingValue where
  | b (x : Bool)
  | i (x : Int)
  | s (x : String)
deriving DecidableEq, Repr

/-- Association-list lookup, the embedding of Python dict lookup
(`d.get(k)` / `k in d`). -/
def lookupKV {β : Type} (m : List (String × β)) (k : String) : Option β :=
  match m with
  | [] => none
  | (k₀, v₀) :: rest => if k₀ = k then some v₀ else lookupKV rest k

/-- Association-list update, the embedding of Python dict assignment
(`d[k] = v`) and of a keyed `put_item`: replaces the binding of `k` when
present, otherwise appends it. -/
def setKV {β : Type} (m : List (String × β)) (k : String) (v : β) : List (String × β) :=
  match m with
  | [] => [(k, v)]
  | (k₀, v₀) :: rest => if k₀ = k then (k, v) :: rest else (k₀, v₀) :: setKV rest k v

/-- `DEFAULT_SETTINGS` from `src/utils/app_settings.py`, in source order. -/
def DEFAULT_SETTINGS : List (String × SettingValue) :=
  [ ("allow_public_signup", .b true),
    ("allow_adding_new_users", .b true),
    ("require_otp_on_registration", .b true),
    ("email_verification_required", .b true),
    ("default_public_role", .s "customer"),
    ("min_password_length", .i 4),
    ("max_failed_login_attempts", .i 5),
    ("account_lockout_duration_minutes", .i 30),
    ("_version", .s "1.0"),
    ("_initialized", .b true) ]

/-- The state of the settings subsystem: the persisted table
(`settings_table`), whether persistence is reachable (a `scan`/`put_item`
raises when it is not), the in-process cache `_settings_cache` and the
`_cache_initialized` flag. -/
structure SettingsState where
  store : List (String × SettingValue)
  storeReachable : Bool
  cache : List (String × SettingValue)
  cacheInitialized : Bool
deriving DecidableEq, Repr

/-- `initialize_settings` (`src/utils/app_settings.py:49`): if the
`_initialized` marker row exists, return without writing; otherwise write
every default key/value.  A storage failure propagates (`raise`). -/
def initialize_settings (st : SettingsState) : Except String SettingsState :=
  if st.storeReachable then
    match lookupKV st.store "_initialized" with
    | some _ => .ok st
    | none =>
        .ok { st with
              store := DEFAULT_SETTINGS.foldl (fun s p => setKV s p.1 p.2) st.store }
  else
    .error "Failed to initialize settings"

/-- `load_settings` (`src/utils/app_settings.py:77`): scan the table into the
cache and mark the cache initialized; on a storage failure leave the state
untouched and hand the caller a copy of `DEFAULT_SETTINGS` as the degraded
result. -/
def load_settings (st : SettingsState) : SettingsState × List (String × SettingValue) :=
  if st.storeReachable then
    ({ st with cache := st.store, cacheInitialized := true }, st.store)
  else
    (st, DEFAULT_SETTINGS)

/-- `get_setting` (`src/utils/app_settings.py:112`): reload the cache when it
is not initialized, read the key from the cache with the default supplied by the caller,
and fall back to `DEFAULT_SETTINGS` when the result is still `None`. -/
def get_setting (st : SettingsState) (key : String) (default : Option SettingValue) :
    SettingsState × Option SettingValue :=
  let st₁ := if st.cacheInitialized then st else (load_settings st).1
  let value := (lookupKV st₁.cache key).orElse (fun _ => default)
  let value₁ := match value with
    | none => lookupKV DEFAULT_SETTINGS key
    | some v => some v
  (st₁, value₁)

/-- `get_all_settings` (`src/utils/app_settings.py:133`): reload the cache when
it is not initialized, then return a copy of the cache. -/
def get_all_settings (st : SettingsState) : SettingsState × List (String × SettingValue) :=
  let st₁ := if st.cacheInitialized then st else (load_settings st).1
  (st₁, st₁.cache)

/-- `update_setting` (`src/utils/app_settings.py:146`): write the key to
persistence and then to the cache; a storage failure propagates before the
cache is touched. -/
def update_setting (st : SettingsState) (key : String) (v : SettingValue) :
    Except String SettingsState :=
  if st.storeReachable then
    .ok { st with store := setKV st.store key v, cache := setKV st.cache key v }
  else
    .error ("Failed to update setting " ++ key)

/-- `update_settings` (`src/utils/app_settings.py:170`): update each key in
order.  The boolean reports success; on a failure the keys already written
stay written and the rest are abandoned. -/
def update_settings_many (st : SettingsState) (kvs : List (String × SettingValue)) :
    SettingsState × Bool :=
  match kvs with
  | [] => (st, true)
  | (k, v) :: rest =>
      match update_setting st k v with
      | .ok st₁ => update_settings_many st₁ rest
      | .error _ => (st, false)

/-- `clear_cache` (`src/utils/app_settings.py:178`). -/
def clear_cache (st : SettingsState) : SettingsState :=
  { st with cache := [], cacheInitialized := false }

/-! ## Responses (`src/utils/responses.py`) -/

/-- The `data` slot of a response body.  Only the payloads the verified
handlers produce are modelled. -/
inductive RData where
  | settingsMap (m : List (String × SettingValue))
  | loginPayload (userId email role : String)
deriving DecidableEq, Repr

/-- The observable response: the top-level `statusCode` plus the body fields
produced by `success_response` / `error_response` in `src/utils/responses.py`.
The CORS headers are constant and omitted; `error` is kept as its two
components (it is `None` exactly when both are `none`). -/
structure Response where
  statusCode : Nat
  success : Bool
  bodyStatusCode : Nat
  message : String
  data : Option RData
  errorCode : Option String
  errorDetails : Option (List (String × String))
deriving DecidableEq, Repr

/-- `success_response` (`src/utils/responses.py:6`) with the default 200
status. -/
def success_response (data : Option RData) (message : String) : Response :=
  { statusCode := 200, success := true, bodyStatusCode := 200, message := message,
    data := data, errorCode := none, errorDetails := none }

/-- `error_response` (`src/utils/responses.py:38`). -/
def error_response (message : String) (status : Nat)
    (errorCode : Option String) (errorDetails : Option (List (String × String))) : Response :=
  { statusCode := status, success := false, bodyStatusCode := status, message := message,
    data := none, errorCode := errorCode, errorDetails := errorDetails }

/-- `validation_error_response` (`src/utils/responses.py:107`): a 422
error with code VALIDATION_ERROR. -/
def validation_error_response (message : String)
    (errors : Option (List (String × String))) : Response :=
  error_response message 422 (some "VALIDATION_ERROR") errors

/-! ## Request-body schema validation
(`src/utils/schema_validator.py`, `src/utils/schemas.py`) -/

/-- A JSON value in a request body.  The handlers under verification only
distinguish booleans, numbers and strings; `jother` stands for any other
JSON value (null, array, object), which every type check rejects. -/
inductive JValue where
  | jb (x : Bool)
  | ji (x : Int)
  | js (x : String)
  | jother
deriving DecidableEq, Repr

/-- The three Python types that appear in `update_settings_schema` and
`ALLOWED_SETTINGS`. -/
inductive FType where
  | tBool
  | tInt
  | tStr
deriving DecidableEq, Repr

def FType.name : FType → String
  | .tBool => "bool"
  | .tInt => "int"
  | .tStr => "str"

def JValue.typeName : JValue → String
  | .jb _ => "bool"
  | .ji _ => "int"
  | .js _ => "str"
  | .jother => "NoneType"

/-- Python `isinstance(value, expected_type)`.  CPython booleans are a
subclass of `int`, so a boolean passes an `int` check. -/
def isinstanceOf : FType → JValue → Bool
  | .tBool, .jb _ => true
  | .tInt, .ji _ => true
  | .tInt, .jb _ => true
  | .tStr, .js _ => true
  | _, _ => false

/-- The integer a value denotes in a Python numeric comparison
(`True` compares as 1, `False` as 0).  Only consulted after an `int`
instance check has passed. -/
def JValue.intVal : JValue → Int
  | .ji n => n
  | .jb x => if x then 1 else 0
  | _ => 0

/-- The string a value denotes; only consulted after a `str` instance check
has passed. -/
def JValue.strVal : JValue → String
  | .js s => s
  | _ => ""

/-- Modelled from the spec: `VALID_ROLES` lives in `config/permissions.py`,
which is not under `src/`.  The spec (§3) fixes the valid-role set as the
system role "master", the internal roles "admin" and "staff", and the
external role "customer". -/
def VALID_ROLES : List String := ["master", "admin", "staff", "customer"]

/-- One field of a `Schema` (`SchemaField` in `src/utils/schema_validator.py`).
Only the options that `update_settings_schema` uses are carried
(`min_length`/`max_length`/`pattern`/`custom_validator` are unused there). -/
structure SchemaField where
  ftype : FType
  required : Bool
  min_value : Option Int := none
  max_value : Option Int := none
  allowed_values : Option (List String) := none
deriving Repr

/-- `SchemaField.validate` (`src/utils/schema_validator.py:45`): the checks
run in source order and the detail message of the first failure is reported.
The numeric bounds apply to any `int`/`float` instance (hence also to
booleans); the allowed-values check compares the raw value. -/
def fieldValidate (f : SchemaField) (v : JValue) : Option String :=
  if ! isinstanceOf f.ftype v then
    some ("Expected " ++ f.ftype.name ++ ", got " ++ v.typeName)
  else if isinstanceOf .tInt v && (match f.min_value with
      | some m => decide (v.intVal < m)
      | none => false) then
    some ("Minimum value is " ++ toString (f.min_value.getD 0))
  else if isinstanceOf .tInt v && (match f.max_value with
      | some m => decide (m < v.intVal)
      | none => false) then
    some ("Maximum value is " ++ toString (f.max_value.getD 0))
  else
    match f.allowed_values with
    | some vs => if vs.contains v.strVal then none
        else some ("Allowed values are: " ++ String.intercalate ", " vs)
    | none => none

/-- A request-body schema (`Schema` in `src/utils/schema_validator.py`). -/
structure Schema where
  fields : List (String × SchemaField)
  strict : Bool

/-- `Schema.validate` (`src/utils/schema_validator.py:121`) restricted to the
error collection it performs: missing required fields, extra fields when
strict, then per-field checks; the per-field details are accumulated per key.
The handler only observes whether the list is empty and its entries. -/
def schemaValidate (sch : Schema) (data : List (String × JValue)) :
    List (String × String) :=
  let missing := sch.fields.filterMap (fun p =>
    if p.2.required && (lookupKV data p.1).isNone then
      some (p.1, "This field is required")
    else none)
  let extras := if sch.strict then
      data.filterMap (fun p =>
        if (lookupKV sch.fields p.1).isNone then
          some (p.1, "This field is not allowed")
        else none)
    else []
  let fieldErrs := data.filterMap (fun p =>
    match lookupKV sch.fields p.1 with
    | some f => (fieldValidate f p.2).map (fun e => (p.1, e))
    | none => none)
  missing ++ extras ++ fieldErrs

/-- `update_settings_schema` (`src/utils/schemas.py:257`): all eight settings
keys, all optional, with the value constraints of the table; strict. -/
def update_settings_schema : Schema :=
  { fields :=
      [ ("allow_public_signup", { ftype := .tBool, required := false }),
        ("allow_adding_new_users", { ftype := .tBool, required := false }),
        ("require_otp_on_registration", { ftype := .tBool, required := false }),
        ("email_verification_required", { ftype := .tBool, required := false }),
        ("default_public_role",
          { ftype := .tStr, required := false, allowed_values := some VALID_ROLES }),
        ("min_password_length",
          { ftype := .tInt, required := false, min_value := some 4, max_value := some 128 }),
        ("max_failed_login_attempts",
          { ftype := .tInt, required := false, min_value := some 1, max_value := some 100 }),
        ("account_lockout_duration_minutes",
          { ftype := .tInt, required := false, min_value := some 0, max_value := some 10080 }) ],
    strict := true }

/-! ## Settings handlers (`src/handlers/settings.py`) -/

/-- `ALLOWED_SETTINGS` (`src/handlers/settings.py:16`): the allowed keys and
their expected Python types. -/
def ALLOWED_SETTINGS : List (String × FType) :=
  [ ("allow_public_signup", .tBool),
    ("allow_adding_new_users", .tBool),
    ("require_otp_on_registration", .tBool),
    ("email_verification_required", .tBool),
    ("default_public_role", .tStr),
    ("min_password_length", .tInt),
    ("max_failed_login_attempts", .tInt),
    ("account_lockout_duration_minutes", .tInt) ]

/-- The `SettingValue` a request value is stored as. -/
def JValue.toSetting : JValue → SettingValue
  | .jb x => .b x
  | .ji n => .i n
  | .js s => .s s
  | .jother => .s ""

/-- The per-key validation loop of `update_settings`
(`src/handlers/settings.py:74`): each key is checked against
`ALLOWED_SETTINGS`, its type, and its range/role constraint; an invalid key
adds a field-level error and `continue`s, a valid key joins the validated
batch.  Returns (errors, validated) in request order. -/
def validateSettingsBody (body : List (String × JValue)) :
    List (String × String) × List (String × SettingValue) :=
  body.foldl
    (fun acc kv =>
      let k := kv.1
      let v := kv.2
      match lookupKV ALLOWED_SETTINGS k with
      | none => (acc.1 ++ [(k, "Unknown setting: " ++ k)], acc.2)
      | some t =>
        if ! isinstanceOf t v then
          (acc.1 ++ [(k, "Invalid type. Expected " ++ t.name ++ ", got " ++ v.typeName)], acc.2)
        else if k = "min_password_length" && decide (v.intVal < 4) then
          (acc.1 ++ [(k, "Minimum password length must be at least 4")], acc.2)
        else if k = "min_password_length" && decide (128 < v.intVal) then
          (acc.1 ++ [(k, "Minimum password length cannot exceed 128")], acc.2)
        else if k = "max_failed_login_attempts" && decide (v.intVal < 1) then
          (acc.1 ++ [(k, "Maximum failed login attempts must be at least 1")], acc.2)
        else if k = "max_failed_login_attempts" && decide (100 < v.intVal) then
          (acc.1 ++ [(k, "Maximum failed login attempts cannot exceed 100")], acc.2)
        else if k = "account_lockout_duration_minutes" && decide (v.intVal < 0) then
          (acc.1 ++ [(k, "Account lockout duration cannot be negative (use 0 for permanent lock)")], acc.2)
        else if k = "account_lockout_duration_minutes" && decide (10080 < v.intVal) then
          (acc.1 ++ [(k, "Account lockout duration cannot exceed 10080 minutes (7 days)")], acc.2)
        else if k = "default_public_role" && ! VALID_ROLES.contains v.strVal then
          (acc.1 ++ [(k, "Invalid role. Must be one of: " ++ String.intercalate ", " VALID_ROLES)], acc.2)
        else
          (acc.1, acc.2 ++ [(k, v.toSetting)]))
    ([], [])

/-- The read-back loop after a successful batch update
(`src/handlers/settings.py:127`): `get_setting` for each validated key,
threading the settings state. -/
def readBackSettings (st : SettingsState) (keys : List String) :
    SettingsState × List (String × Option SettingValue) :=
  match keys with
  | [] => (st, [])
  | k :: rest =>
      let r := get_setting st k none
      let rec' := readBackSettings r.1 rest
      (rec'.1, (k, r.2) :: rec'.2)

/-- Entries of the read-back map, with Python `None` values dropped from the
modelled payload (a validated key is always present, so none are dropped in
reachable runs). -/
def presentSettings (l : List (String × Option SettingValue)) :
    List (String × SettingValue) :=
  l.filterMap (fun p => p.2.map (fun v => (p.1, v)))

/-- `update_settings` (`src/handlers/settings.py:56`) composed with its
`validate_request_body update_settings_schema` decorator
(`src/utils/schema_validator.py:168`).  The decorator rejects the body with a
400 VALIDATION_ERROR response when the schema reports errors; otherwise the
handler rejects an empty body (422), runs the per-key validation loop,
rejects the whole batch with a 422 when any key is invalid, and only then
applies every validated key and answers with the read-back values.  A storage
failure during the batch surfaces as the 500 response of the handler. -/
def update_settings_handler (st : SettingsState) (body : List (String × JValue)) :
    SettingsState × Response :=
  let schemaErrs := schemaValidate update_settings_schema body
  if schemaErrs ≠ [] then
    (st, error_response "Validation failed" 400 (some "VALIDATION_ERROR") (some schemaErrs))
  else if body = [] then
    (st, validation_error_response "No settings provided" none)
  else
    let ev := validateSettingsBody body
    if ev.1 ≠ [] then
      (st, validation_error_response "Validation failed" (some ev.1))
    else
      let upd := update_settings_many st ev.2
      if upd.2 then
        let rb := readBackSettings upd.1 (ev.2.map Prod.fst)
        let n := rb.2.length
        (rb.1, success_response (some (.settingsMap (presentSettings rb.2)))
          (s!"Successfully updated {n} setting(s)"))
      else
        (upd.1, error_response "Failed to update settings" 500 none none)

/-- The Python underscore test `startswith` used by the
settings handlers: true iff the first character of `k` is an underscore. -/
def startsWithUnderscore (k : String) : Bool :=
  match k.data with
  | [] => false
  | c :: _ => c = '_'

/-- `get_settings` (`src/handlers/settings.py:33`): fetch all settings and
return the ones whose key does not start with an underscore. -/
def get_settings_handler (st : SettingsState) : SettingsState × Response :=
  let r := get_all_settings st
  let publicSettings := r.2.filter (fun p => ! startsWithUnderscore p.1)
  (r.1, success_response (some (.settingsMap publicSettings)) "Success")

/-! ## Login handler (`src/handlers/login.py`)

The user record is the security-relevant projection of the account row; the
three policy knobs the handler reads through `get_setting` are passed as a
`LoginPolicy` snapshot; password verification is the external
`verify_password` capability, passed as a function.  Time is measured in
minutes by a natural-number clock. -/

/-- The account row as the login handler reads and writes it. -/
structure User where
  user_id : String
  email : String
  password : String
  role : String
  is_verified : Bool
  is_locked : Bool
  failed_login_attempts : Nat
  locked_at : Option Nat
deriving DecidableEq, Repr

/-- One row of the login-attempt table
(`LoginAttemptDB.record_attempt(ip, email, success)`). -/
structure AttemptRecord where
  ip : String
  email : String
  success : Bool
deriving DecidableEq, Repr

/-- The three settings the handler reads (`src/handlers/login.py:53`). -/
structure LoginPolicy where
  max_failed_login_attempts : Nat
  account_lockout_duration_minutes : Nat
  email_verification_required : Bool
deriving DecidableEq, Repr

/-- Modelled from the spec: `UserDB.should_auto_unlock` is not under `src/`.
Spec §4.4: a lock with configured duration 0 is permanent and never
auto-unlocks; with duration D > 0 the account auto-unlocks when
`now - locked_at >= D`.  An absent `locked_at` never unlocks. -/
def should_auto_unlock (u : User) (duration : Nat) (now : Nat) : Bool :=
  duration != 0 &&
    (match u.locked_at with
     | some t => decide (duration ≤ now - t)
     | none => false)

/-- Modelled from the spec: `UserDB.unlock_account` is not under `src/`.
Spec §4.4: auto-unlock transitions back to the active state with the
failed-attempt counter reset to 0. -/
def unlock_account (u : User) : User :=
  { u with is_locked := false, failed_login_attempts := 0, locked_at := none }

/-- Modelled from the spec: `UserDB.increment_failed_attempts` is not under
`src/`.  Spec §6: `IncrementFailedAttempts(userId) -> newCount` (atomic);
returns the updated row and the new count. -/
def increment_failed_attempts (u : User) : User × Nat :=
  ({ u with failed_login_attempts := u.failed_login_attempts + 1 },
   u.failed_login_attempts + 1)

/-- Modelled from the spec: `UserDB.lock_account` is not under `src/`.
Spec §4.4: the lock transition sets `is_locked=true` and stamps
`locked_at=now`. -/
def lock_account (u : User) (now : Nat) : User :=
  { u with is_locked := true, locked_at := some now }

/-- Modelled from the spec: `UserDB.reset_failed_attempts` is not under
`src/`.  Spec §6: `ResetFailedAttempts(userId)` zeroes the counter. -/
def reset_failed_attempts (u : User) : User :=
  { u with failed_login_attempts := 0 }

/-- Modelled from the spec: `login_success_response` is not under `src/`.
Spec §4.5: the success path returns the composed success payload (user
projection without the password verifier, tokens, expiry); only its 200
status, success flag and payload kind matter to the verified properties, so
the token fields are abstracted into the payload constructor. -/
def login_success_response (u : User) : Response :=
  { statusCode := 200, success := true, bodyStatusCode := 200,
    message := "Login successful",
    data := some (.loginPayload u.user_id u.email u.role),
    errorCode := none, errorDetails := none }

/-- The outcome of a login request: the account row after the request (none
when the email is unknown), the login-attempt table, and the response. -/
structure LoginResult where
  user : Option User
  attempts : List AttemptRecord
  response : Response
deriving DecidableEq, Repr

/-- The verification and credential stages of `login`
(`src/handlers/login.py:76`): verification gate, then password check with the
failed-attempt/lockout transition, then the success path.  `attempts` is the
login-attempt table on entry. -/
def login_after_lock (user : User) (pol : LoginPolicy)
    (verify : String → String → Bool) (password ip email : String) (now : Nat)
    (attempts : List AttemptRecord) : LoginResult :=
  if pol.email_verification_required && ! user.is_verified then
    { user := some user, attempts := attempts,
      response := error_response
        "Account is not verified. Please verify your email and phone." 403 none none }
  else if ! verify password user.password then
    let inc := increment_failed_attempts user
    let failed := inc.2
    if pol.max_failed_login_attempts ≤ failed then
      let lockedUser := lock_account inc.1 now
      let maxA := pol.max_failed_login_attempts
      let dur := pol.account_lockout_duration_minutes
      if dur = 0 then
        { user := some lockedUser, attempts := attempts,
          response := error_response
            (s!"Account permanently locked due to {maxA} failed login attempts. Contact support.")
            403 none none }
      else
        { user := some lockedUser, attempts := attempts,
          response := error_response
            (s!"Account locked for {dur} minutes due to {maxA} failed login attempts")
            403 none none }
    else
      let remaining := pol.max_failed_login_attempts - failed
      { user := some inc.1,
        attempts := attempts ++ [⟨ip, email, false⟩],
        response := error_response
          (s!"Invalid email or password. {remaining} attempts remaining.") 401 none none }
  else
    let user₁ := reset_failed_attempts user
    { user := some user₁,
      attempts := attempts ++ [⟨ip, email, true⟩],
      response := login_success_response user₁ }

/-- `login` (`src/handlers/login.py:25`) from the account lookup on (body
validation and rate limiting run before this point and are out of scope):
unknown email records a failed attempt and denies generically; a locked
account is auto-unlocked or denied before the verification and credential
checks; then `login_after_lock` finishes the request. -/
def login (userOpt : Option User) (pol : LoginPolicy)
    (verify : String → String → Bool) (password ip email : String) (now : Nat)
    (attempts : List AttemptRecord) : LoginResult :=
  match userOpt with
  | none =>
      { user := none,
        attempts := attempts ++ [⟨ip, email, false⟩],
        response := error_response "Invalid email or password" 401 none none }
  | some user₀ =>
      if user₀.is_locked then
        if should_auto_unlock user₀ pol.account_lockout_duration_minutes now then
          login_after_lock (unlock_account user₀) pol verify password ip email now attempts
        else if pol.account_lockout_duration_minutes = 0 then
          { user := some user₀, attempts := attempts,
            response := error_response
              "Account is permanently locked. Contact support." 403 none none }
        else
          { user := some user₀, attempts := attempts,
            response := error_response
              "Account is locked due to too many failed login attempts. Try again later."
              403 none none }
      else
        login_after_lock user₀ pol verify password ip email now attempts

/-! ## Shared lemmas about the association-list store -/

theorem lookupKV_setKV_self {β : Type} (m : List (String × β)) (k : String) (v : β) :
    lookupKV (setKV m k v) k = some v := by
  induction m with
  | nil => simp [setKV, lookupKV]
  | cons hd tl ih =>
      obtain ⟨k₀, v₀⟩ := hd
      by_cases h : k₀ = k
      · simp [setKV, h, lookupKV]
      · simp [setKV, h, lookupKV, ih]

theorem lookupKV_setKV_other {β : Type} (m : List (String × β)) {k k' : String} (v : β)
    (h : k' ≠ k) : lookupKV (setKV m k v) k' = lookupKV m k' := by
  have hkk : ¬ (k = k') := fun he => h he.symm
  induction m with
  | nil =>
      simp only [setKV, lookupKV]
      rw [if_neg hkk]
  | cons hd tl ih =>
      obtain ⟨k₀, v₀⟩ := hd
      by_cases h₀ : k₀ = k
      · subst h₀
        simp only [setKV, if_pos rfl, lookupKV]
        rw [if_neg hkk, if_neg hkk]
      · simp [setKV, h₀, lookupKV, ih]

theorem lookupKV_foldl_setKV_not_mem {β : Type} (l : List (String × β))
    (s : List (String × β)) (k : String) (h : ∀ p ∈ l, p.1 ≠ k) :
    lookupKV (l.foldl (fun acc p => setKV acc p.1 p.2) s) k = lookupKV s k := by
  induction l generalizing s with
  | nil => rfl
  | cons hd tl ih =>
      simp only [List.foldl_cons]
      rw [ih _ (fun p hp => h p (List.mem_cons_of_mem _ hp))]
      exact lookupKV_setKV_other s hd.2 (Ne.symm (h hd (List.mem_cons_self _ _)))

theorem lookupKV_foldl_setKV_mem {β : Type} (l : List (String × β))
    (s : List (String × β)) (k : String) (v : β)
    (hnd : (l.map Prod.fst).Nodup) (hmem : (k, v) ∈ l) :
    lookupKV (l.foldl (fun acc p => setKV acc p.1 p.2) s) k = some v := by
  induction l generalizing s with
  | nil => cases hmem
  | cons hd tl ih =>
      simp only [List.foldl_cons]
      rw [List.map_cons] at hnd
      have h1 : hd.1 ∉ tl.map Prod.fst := (List.nodup_cons.mp hnd).1
      have h2 : (tl.map Prod.fst).Nodup := (List.nodup_cons.mp hnd).2
      rcases List.mem_cons.mp hmem with heq | hmem'
      · have hk : hd.1 = k := by rw [← heq]
        have hnotin : ∀ p ∈ tl, p.1 ≠ k := by
          intro p hp hpk
          exact h1 (by rw [hk, ← hpk]; exact List.mem_map_of_mem Prod.fst hp)
        rw [lookupKV_foldl_setKV_not_mem tl _ k hnotin, ← heq]
        exact lookupKV_setKV_self s k v
      · exact ih _ h2 hmem'

theorem update_settings_many_reachable (st : SettingsState)
    (kvs : List (String × SettingValue)) (h : st.storeReachable = true) :
    update_settings_many st kvs =
      ({ st with store := kvs.foldl (fun acc p => setKV acc p.1 p.2) st.store,
                 cache := kvs.foldl (fun acc p => setKV acc p.1 p.2) st.cache }, true) := by
  induction kvs generalizing st with
  | nil => rfl
  | cons hd tl ih =>
      obtain ⟨k, v⟩ := hd
      simp only [update_settings_many, update_setting, h, if_true, List.foldl_cons]
      exact ih _ rfl

theorem get_setting_preserves_store (st : SettingsState) (k : String)
    (d : Option SettingValue) :
    (get_setting st k d).1.store = st.store ∧
    (get_setting st k d).1.storeReachable = st.storeReachable := by
  by_cases hci : st.cacheInitialized <;>
    by_cases hr : st.storeReachable <;>
      simp [get_setting, load_settings, hci, hr]

theorem readBackSettings_preserves_store (st : SettingsState) (keys : List String) :
    (readBackSettings st keys).1.store = st.store := by
  induction keys generalizing st with
  | nil => rfl
  | cons k rest ih =>
      simp only [readBackSettings]
      rw [ih, (get_setting_preserves_store st k none).1]

/-! ## Concrete sample states used by witnesses and counterexamples -/

/-- A reachable, freshly deployed settings state: the table holds the seeded
defaults and the cache is cold. -/
def sampleSettingsState : SettingsState :=
  { store := DEFAULT_SETTINGS, storeReachable := true, cache := [],
    cacheInitialized := false }

/-- The same stored settings with persistence unreachable and a cold cache. -/
def unreachableFreshState : SettingsState :=
  { store := DEFAULT_SETTINGS, storeReachable := false, cache := [],
    cacheInitialized := false }

/-- A reachable settings state whose table has never been seeded. -/
def emptyStoreState : SettingsState :=
  { store := [], storeReachable := true, cache := [], cacheInitialized := false }

/-- `sampleSettingsState` after `update_setting "min_password_length" 10`. -/
def updatedSampleState : SettingsState :=
  { sampleSettingsState with
    store := setKV sampleSettingsState.store "min_password_length" (.i 10),
    cache := setKV sampleSettingsState.cache "min_password_length" (.i 10) }

/-! ## C7 — degraded fallback when persistence is unreachable -/

/-- C7 counterexample: with persistence unreachable and a cold cache,
`get_all_settings` returns the empty mapping, not the hard-coded default
mapping the claim promises. -/
theorem C7_getall_counterexample :
    (get_all_settings unreachableFreshState).2 = [] ∧ DEFAULT_SETTINGS ≠ [] := by
  decide

/-- C7 (amended): when the settings persistence layer is unreachable during a
reload, callers are not failed: `load_settings` hands its caller the
hard-coded defaults, `get_setting key fallback` returns the supplied fallback
(or the hard-coded default for the key when no fallback was supplied) — but
`get_all_settings` does not follow that discipline: it ignores the degraded
result and returns a copy of the still-empty cache, i.e. the empty mapping. -/
theorem C7_degraded_fallback (st : SettingsState) (key : String) (fb : SettingValue)
    (hun : st.storeReachable = false) (hci : st.cacheInitialized = false)
    (hc : st.cache = []) :
    (load_settings st).2 = DEFAULT_SETTINGS ∧
    (get_setting st key (some fb)).2 = some fb ∧
    (get_setting st key none).2 = lookupKV DEFAULT_SETTINGS key ∧
    (get_all_settings st).2 = [] := by
  refine ⟨?_, ?_, ?_, ?_⟩
  · simp [load_settings, hun]
  · simp [get_setting, load_settings, hun, hci, hc, lookupKV, Option.orElse]
  · simp [get_setting, load_settings, hun, hci, hc, lookupKV, Option.orElse]
  · simp [get_all_settings, load_settings, hun, hci, hc]

/-- C7 witness: the amended statement at the unreachable fresh state and the
`max_failed_login_attempts` key. -/
theorem C7_degraded_fallback_witness :
    (load_settings unreachableFreshState).2 = DEFAULT_SETTINGS ∧
    (get_setting unreachableFreshState "max_failed_login_attempts" (some (.i 99))).2 =
      some (.i 99) ∧
    (get_setting unreachableFreshState "max_failed_login_attempts" none).2 =
      lookupKV DEFAULT_SETTINGS "max_failed_login_attempts" ∧
    (get_all_settings unreachableFreshState).2 = [] :=
  C7_degraded_fallback unreachableFreshState "max_failed_login_attempts" (.i 99)
    rfl rfl rfl

/-! ## C8 — settings round-trip through cache and forced reload -/

/-- C8: for an allowed key and a value, a successful `update_setting`
followed by `get_setting` returns the value, both immediately (from the
cache) and after `clear_cache` (forced reload from persistence). -/
theorem C8_roundtrip (st st' : SettingsState) (k : String) (v : SettingValue)
    (hreach : st.storeReachable = true)
    (hallowed : (lookupKV ALLOWED_SETTINGS k).isSome = true)
    (hok : update_setting st k v = .ok st') :
    (get_setting st' k none).2 = some v ∧
    (get_setting (clear_cache st') k none).2 = some v := by
  have hst' : st' = { st with store := setKV st.store k v, cache := setKV st.cache k v } := by
    rw [update_setting, if_pos hreach] at hok
    exact (Except.ok.injEq _ _ |>.mp hok).symm
  subst hst'
  constructor
  · by_cases hci : st.cacheInitialized
    · simp [get_setting, hci, lookupKV_setKV_self, Option.orElse]
    · simp [get_setting, hci, load_settings, hreach, lookupKV_setKV_self, Option.orElse]
  · simp [clear_cache, get_setting, load_settings, hreach, lookupKV_setKV_self,
      Option.orElse]

/-- C8 witness: the round-trip at the sample state for
`min_password_length := 10`. -/
theorem C8_roundtrip_witness :
    (get_setting updatedSampleState "min_password_length" none).2 = some (.i 10) ∧
    (get_setting (clear_cache updatedSampleState) "min_password_length" none).2 =
      some (.i 10) :=
  C8_roundtrip sampleSettingsState updatedSampleState "min_password_length" (.i 10)
    rfl (by decide) rfl

/-! ## C9 — idempotent initialization -/

/-- C9: when the `_initialized` marker is present, `initialize_settings`
performs no writes and returns successfully with the state unchanged; on an
uninitialized store it seeds exactly the default key/value set. -/
theorem C9_initialize_idempotent (st : SettingsState)
    (hreach : st.storeReachable = true) :
    ((lookupKV st.store "_initialized").isSome = true →
      initialize_settings st = .ok st) ∧
    (lookupKV st.store "_initialized" = none →
      initialize_settings st =
        .ok { st with
              store := DEFAULT_SETTINGS.foldl (fun acc p => setKV acc p.1 p.2) st.store } ∧
      ∀ k v, (k, v) ∈ DEFAULT_SETTINGS →
        lookupKV (DEFAULT_SETTINGS.foldl (fun acc p => setKV acc p.1 p.2) st.store) k =
          some v) := by
  constructor
  · intro hinit
    rcases ho : lookupKV st.store "_initialized" with _ | m
    · rw [ho] at hinit
      cases hinit
    · simp [initialize_settings, hreach, ho]
  · intro hnone
    refine ⟨by simp [initialize_settings, hreach, hnone], ?_⟩
    intro k v hmem
    exact lookupKV_foldl_setKV_mem _ _ _ _ (by decide) hmem

/-- C9 witness: initializing the already-seeded sample store is a no-op, and
initializing an empty store seeds the defaults (here checked on the
`max_failed_login_attempts` row). -/
theorem C9_initialize_idempotent_witness :
    initialize_settings sampleSettingsState = .ok sampleSettingsState ∧
    lookupKV ((initialize_settings emptyStoreState).toOption.getD emptyStoreState).store
      "max_failed_login_attempts" = some (.i 5) := by
  constructor
  · exact (C9_initialize_idempotent sampleSettingsState rfl).1 (by decide)
  · have h := (C9_initialize_idempotent emptyStoreState rfl).2 rfl
    rw [h.1]
    exact h.2 "max_failed_login_attempts" (.i 5) (by decide)

/-! ## C10 — internal settings are never exposed by GET /settings -/

/-- C10: the successful GET /settings response carries exactly the settings
whose keys do not start with an underscore; any key starting with an
underscore (such as `_version` and `_initialized`) is absent from the
payload. -/
theorem C10_internal_keys_hidden (st : SettingsState) :
    (get_settings_handler st).2 =
      success_response
        (some (.settingsMap
          ((get_all_settings st).2.filter (fun p => ! startsWithUnderscore p.1))))
        "Success" ∧
    (∀ k v, (k, v) ∈ (get_all_settings st).2.filter (fun p => ! startsWithUnderscore p.1) ↔
      ((k, v) ∈ (get_all_settings st).2 ∧ startsWithUnderscore k = false)) ∧
    (∀ k v, startsWithUnderscore k = true →
      (k, v) ∉ (get_all_settings st).2.filter (fun p => ! startsWithUnderscore p.1)) := by
  refine ⟨rfl, ?_, ?_⟩
  · intro k v
    simp [List.mem_filter]
  · intro k v hk hmem
    rw [List.mem_filter] at hmem
    simp [hk] at hmem

/-- C10 witness: `_version` is not in the payload computed over the sample
state. -/
theorem C10_internal_keys_hidden_witness :
    ("_version", SettingValue.s "1.0") ∉
      (get_all_settings sampleSettingsState).2.filter
        (fun p => ! startsWithUnderscore p.1) :=
  (C10_internal_keys_hidden sampleSettingsState).2.2 "_version" (SettingValue.s "1.0")
    (by decide)

/-! ## C2 — batch settings updates -/

/-- In a strict schema, every key of the body that is not a schema field
contributes its own field-level error to the validation result. -/
theorem schemaValidate_extra_mem (sch : Schema) (data : List (String × JValue))
    (k : String) (v : JValue) (hstrict : sch.strict = true)
    (hmem : (k, v) ∈ data) (hnone : lookupKV sch.fields k = none) :
    (k, "This field is not allowed") ∈ schemaValidate sch data := by
  have h1 : (k, "This field is not allowed") ∈
      data.filterMap (fun p =>
        if (lookupKV sch.fields p.1).isNone then
          some (p.1, "This field is not allowed")
        else none) := by
    refine List.mem_filterMap.mpr ⟨(k, v), hmem, ?_⟩
    simp [hnone]
  simp only [schemaValidate, hstrict, if_true]
  exact List.mem_append.mpr (Or.inl (List.mem_append.mpr (Or.inr h1)))

/-- A batch that passes both validation layers is applied in full: the
resulting store is the fold of the validated keys over the old store, and the
response is the 200 success. -/
theorem update_settings_handler_success (st : SettingsState)
    (body : List (String × JValue))
    (hs : schemaValidate update_settings_schema body = [])
    (hne : body ≠ [])
    (hv : (validateSettingsBody body).1 = [])
    (hreach : st.storeReachable = true) :
    (update_settings_handler st body).1.store =
      (validateSettingsBody body).2.foldl (fun acc p => setKV acc p.1 p.2) st.store ∧
    (update_settings_handler st body).2.statusCode = 200 := by
  simp only [update_settings_handler]
  rw [if_neg (by simp [hs]), if_neg hne, if_neg (by simp [hv]),
    update_settings_many_reachable st _ hreach]
  simp only [if_true]
  constructor
  · rw [readBackSettings_preserves_store]
  · rfl

/-- A request body mixing one valid key with one unknown key. -/
def mixedBody : List (String × JValue) :=
  [("allow_public_signup", .jb false), ("bogus_key", .jb true)]

/-- C2 counterexample: a body holding the valid key `allow_public_signup`
and the unknown key `bogus_key` is rejected whole — the settings state is
unchanged (the valid key is NOT applied) and the response is the 400 schema
rejection, contradicting the claimed partial success. -/
theorem C2_partial_success_counterexample :
    (update_settings_handler sampleSettingsState mixedBody).1 = sampleSettingsState ∧
    lookupKV (update_settings_handler sampleSettingsState mixedBody).1.store
      "allow_public_signup" = some (.b true) ∧
    (update_settings_handler sampleSettingsState mixedBody).2.statusCode = 400 := by
  decide

/-- C2 (amended): each unlisted, wrong-typed or out-of-range key is rejected
with a field-level error for that key and validation of the other keys still
proceeds (every unknown key in the batch appears in the error list); but the
batch is all-or-nothing, not partial-success: any invalid key causes the
whole request to be rejected (the strict schema decorator answers 400 with
the per-key details and the state unchanged), and only a batch in which every
key is valid is applied — then every validated key is written to the settings
store. -/
theorem C2_batch_validation (st : SettingsState) (body : List (String × JValue)) :
    (∀ k v, (k, v) ∈ body → lookupKV update_settings_schema.fields k = none →
      (k, "This field is not allowed") ∈ schemaValidate update_settings_schema body) ∧
    (schemaValidate update_settings_schema body ≠ [] →
      (update_settings_handler st body).1 = st ∧
      (update_settings_handler st body).2 =
        error_response "Validation failed" 400 (some "VALIDATION_ERROR")
          (some (schemaValidate update_settings_schema body))) ∧
    (schemaValidate update_settings_schema body = [] → body ≠ [] →
      (validateSettingsBody body).1 = [] → st.storeReachable = true →
      (update_settings_handler st body).2.statusCode = 200 ∧
      (((validateSettingsBody body).2.map Prod.fst).Nodup →
        ∀ k v, (k, v) ∈ (validateSettingsBody body).2 →
          lookupKV (update_settings_handler st body).1.store k = some v)) := by
  refine ⟨?_, ?_, ?_⟩
  · intro k v hmem hnone
    exact schemaValidate_extra_mem update_settings_schema body k v rfl hmem hnone
  · intro hne
    simp only [update_settings_handler]
    rw [if_pos hne]
    exact ⟨rfl, rfl⟩
  · intro hs hne hv hreach
    refine ⟨(update_settings_handler_success st body hs hne hv hreach).2, ?_⟩
    intro hnd k v hmem
    rw [(update_settings_handler_success st body hs hne hv hreach).1]
    exact lookupKV_foldl_setKV_mem _ _ _ _ hnd hmem

/-- C2 witness: the unknown key of `mixedBody` is reported while state stays
put, and the all-valid batch `allow_public_signup := false` is applied. -/
theorem C2_batch_validation_witness :
    ("bogus_key", "This field is not allowed") ∈
      schemaValidate update_settings_schema mixedBody ∧
    (update_settings_handler sampleSettingsState mixedBody).1 = sampleSettingsState ∧
    lookupKV (update_settings_handler sampleSettingsState
      [("allow_public_signup", JValue.jb false)]).1.store "allow_public_signup" =
      some (.b false) := by
  refine ⟨?_, ?_, ?_⟩
  · exact (C2_batch_validation sampleSettingsState mixedBody).1 "bogus_key" (.jb true)
      (by decide) rfl
  · exact ((C2_batch_validation sampleSettingsState mixedBody).2.1 (by decide)).1
  · exact ((C2_batch_validation sampleSettingsState
        [("allow_public_signup", JValue.jb false)]).2.2 (by decide) (by decide)
        (by decide) rfl).2 (by decide) "allow_public_signup" (.b false) (by decide)

/-! ## Login-path lemmas -/

theorem toString_str_id (s : String) : toString s = s := rfl

/-- The denial message of the generic path differs from the denial message of
the remaining-attempts path, whatever count the latter carries. -/
theorem invalid_message_append_ne (r : String) :
    "Invalid email or password" ≠
      "Invalid email or password. " ++ r ++ " attempts remaining." := by
  intro h
  have h2 := congrArg String.length h
  rw [String.length_append, String.length_append] at h2
  have e1 : ("Invalid email or password" : String).length = 25 := rfl
  have e2 : ("Invalid email or password. " : String).length = 27 := rfl
  have e3 : (" attempts remaining." : String).length = 20 := rfl
  omega

/-- Unknown email: record a failed attempt, deny generically
(`src/handlers/login.py:47`). -/
theorem login_unknown_email (pol : LoginPolicy) (verify : String → String → Bool)
    (pw ip em : String) (now : Nat) (att : List AttemptRecord) :
    login none pol verify pw ip em now att =
      { user := none, attempts := att ++ [⟨ip, em, false⟩],
        response := error_response "Invalid email or password" 401 none none } := rfl

/-- A locked account that does not auto-unlock is denied with the lock
message and no state change (`src/handlers/login.py:58`). -/
theorem login_locked_denied (u : User) (pol : LoginPolicy)
    (verify : String → String → Bool) (pw ip em : String) (now : Nat)
    (att : List AttemptRecord)
    (hlock : u.is_locked = true)
    (hnoul : should_auto_unlock u pol.account_lockout_duration_minutes now = false) :
    login (some u) pol verify pw ip em now att =
      { user := some u, attempts := att,
        response := error_response
          (if pol.account_lockout_duration_minutes = 0 then
            "Account is permanently locked. Contact support."
          else
            "Account is locked due to too many failed login attempts. Try again later.")
          403 none none } := by
  by_cases hd : pol.account_lockout_duration_minutes = 0
  · rw [hd] at hnoul
    simp [login, hlock, hnoul, hd]
  · simp [login, hlock, hnoul, hd]

/-- A locked account that auto-unlocks proceeds, within the same request,
to the verification and credential checks with the unlocked row
(`src/handlers/login.py:58`). -/
theorem login_auto_unlock (u : User) (pol : LoginPolicy)
    (verify : String → String → Bool) (pw ip em : String) (now : Nat)
    (att : List AttemptRecord)
    (hlock : u.is_locked = true)
    (hul : should_auto_unlock u pol.account_lockout_duration_minutes now = true) :
    login (some u) pol verify pw ip em now att =
      login_after_lock (unlock_account u) pol verify pw ip em now att := by
  simp [login, hlock, hul]

/-- An unlocked account passes straight to the verification and credential
checks. -/
theorem login_not_locked (u : User) (pol : LoginPolicy)
    (verify : String → String → Bool) (pw ip em : String) (now : Nat)
    (att : List AttemptRecord) (hlock : u.is_locked = false) :
    login (some u) pol verify pw ip em now att =
      login_after_lock u pol verify pw ip em now att := by
  simp [login, hlock]

/-- Verification gate: required and unverified means a 403 denial with no
state change (`src/handlers/login.py:76`). -/
theorem login_after_lock_unverified (u : User) (pol : LoginPolicy)
    (verify : String → String → Bool) (pw ip em : String) (now : Nat)
    (att : List AttemptRecord)
    (hreq : pol.email_verification_required = true) (hunv : u.is_verified = false) :
    login_after_lock u pol verify pw ip em now att =
      { user := some u, attempts := att,
        response := error_response
          "Account is not verified. Please verify your email and phone." 403 none none } := by
  simp [login_after_lock, hreq, hunv]

/-- Wrong password below the threshold: counter incremented, failed attempt
recorded, denial stating the remaining attempts
(`src/handlers/login.py:80`). -/
theorem login_after_lock_wrong_below (u : User) (pol : LoginPolicy)
    (verify : String → String → Bool) (pw ip em : String) (now : Nat)
    (att : List AttemptRecord)
    (hgate : pol.email_verification_required = false ∨ u.is_verified = true)
    (hwrong : verify pw u.password = false)
    (hbelow : u.failed_login_attempts + 1 < pol.max_failed_login_attempts) :
    login_after_lock u pol verify pw ip em now att =
      { user := some { u with failed_login_attempts := u.failed_login_attempts + 1 },
        attempts := att ++ [⟨ip, em, false⟩],
        response := error_response
          ("Invalid email or password. " ++
            toString (pol.max_failed_login_attempts - (u.failed_login_attempts + 1)) ++
            " attempts remaining.") 401 none none } := by
  have hgate' : (pol.email_verification_required && ! u.is_verified) = false := by
    rcases hgate with h | h <;> simp [h]
  have hnotle : ¬ (pol.max_failed_login_attempts ≤ u.failed_login_attempts + 1) :=
    Nat.not_le.mpr hbelow
  simp [login_after_lock, increment_failed_attempts, hgate', hwrong, hnotle,
    toString_str_id, error_response]

/-- Wrong password reaching the threshold: counter incremented, account
locked with `locked_at = now`, no attempt recorded, 403 lockout response
(`src/handlers/login.py:80`). -/
theorem login_after_lock_wrong_locks (u : User) (pol : LoginPolicy)
    (verify : String → String → Bool) (pw ip em : String) (now : Nat)
    (att : List AttemptRecord)
    (hgate : pol.email_verification_required = false ∨ u.is_verified = true)
    (hwrong : verify pw u.password = false)
    (hge : pol.max_failed_login_attempts ≤ u.failed_login_attempts + 1) :
    login_after_lock u pol verify pw ip em now att =
      { user := some (lock_account
          { u with failed_login_attempts := u.failed_login_attempts + 1 } now),
        attempts := att,
        response := error_response
          (if pol.account_lockout_duration_minutes = 0 then
            "Account permanently locked due to " ++
              toString pol.max_failed_login_attempts ++
              " failed login attempts. Contact support."
          else
            "Account locked for " ++
              toString pol.account_lockout_duration_minutes ++
              " minutes due to " ++ toString pol.max_failed_login_attempts ++
              " failed login attempts")
          403 none none } := by
  have hgate' : (pol.email_verification_required && ! u.is_verified) = false := by
    rcases hgate with h | h <;> simp [h]
  by_cases hd : pol.account_lockout_duration_minutes = 0 <;>
    simp [login_after_lock, increment_failed_attempts, hgate', hwrong, hge, hd,
      toString_str_id, error_response]

/-- Correct password: counter reset, success recorded, success payload
(`src/handlers/login.py:108`). -/
theorem login_after_lock_success (u : User) (pol : LoginPolicy)
    (verify : String → String → Bool) (pw ip em : String) (now : Nat)
    (att : List AttemptRecord)
    (hgate : pol.email_verification_required = false ∨ u.is_verified = true)
    (hright : verify pw u.password = true) :
    login_after_lock u pol verify pw ip em now att =
      { user := some (reset_failed_attempts u),
        attempts := att ++ [⟨ip, em, true⟩],
        response := login_success_response (reset_failed_attempts u) } := by
  have hgate' : (pol.email_verification_required && ! u.is_verified) = false := by
    rcases hgate with h | h <;> simp [h]
  simp [login_after_lock, hgate', hright]

/-! ## Concrete login fixtures -/

/-- The external password-verification capability instantiated for witnesses:
plain equality of candidate and stored verifier. -/
def sampleVerify : String → String → Bool := fun candidate stored => candidate = stored

/-- A verified, unlocked account with no failed attempts. -/
def sampleUser : User :=
  { user_id := "u-1", email := "person@example.com", password := "stored-hash",
    role := "customer", is_verified := true, is_locked := false,
    failed_login_attempts := 0, locked_at := none }

/-- The default policy snapshot: threshold 5, lockout 30 minutes,
verification required. -/
def samplePolicy : LoginPolicy :=
  { max_failed_login_attempts := 5, account_lockout_duration_minutes := 30,
    email_verification_required := true }

/-- `sampleUser` locked at minute 0. -/
def lockedSampleUser : User :=
  { sampleUser with is_locked := true, locked_at := some 0 }

/-- `samplePolicy` with a permanent (duration 0) lockout. -/
def permanentPolicy : LoginPolicy :=
  { samplePolicy with account_lockout_duration_minutes := 0 }

/-! ## C1 — enumeration resistance of the two denial paths -/

/-- C1 counterexample: at a concrete unknown-email run and a concrete
known-email-wrong-password run (verified, unlocked, below threshold), the
response messages differ — the runs are distinguishable, contrary to the
claim. -/
theorem C1_enumeration_counterexample :
    (login none samplePolicy sampleVerify "guess" "9.9.9.9" "ghost@example.com" 0
      []).response.message ≠
    (login (some sampleUser) samplePolicy sampleVerify "guess" "9.9.9.9"
      "person@example.com" 0 []).response.message := by
  decide

/-- C1 (amended): the unknown-email denial and the wrong-password denial of a
known, unlocked, verified account below the lockout threshold agree in HTTP
status (both 401) and in structural shape (failure flag, no data, no error
code), but their message strings differ — the wrong-password denial appends
the remaining-attempt count — so the two runs remain distinguishable to the
caller. -/
theorem C1_enumeration_status_shape (u : User) (pol : LoginPolicy)
    (verify : String → String → Bool) (pw pw₂ ip ip₂ em em₂ : String)
    (now now₂ : Nat) (att att₂ : List AttemptRecord)
    (hlock : u.is_locked = false) (hver : u.is_verified = true)
    (hwrong : verify pw u.password = false)
    (hbelow : u.failed_login_attempts + 1 < pol.max_failed_login_attempts) :
    (login none pol verify pw₂ ip₂ em₂ now₂ att₂).response.statusCode = 401 ∧
    (login (some u) pol verify pw ip em now att).response.statusCode = 401 ∧
    (login none pol verify pw₂ ip₂ em₂ now₂ att₂).response.success = false ∧
    (login (some u) pol verify pw ip em now att).response.success = false ∧
    (login none pol verify pw₂ ip₂ em₂ now₂ att₂).response.data = none ∧
    (login (some u) pol verify pw ip em now att).response.data = none ∧
    (login none pol verify pw₂ ip₂ em₂ now₂ att₂).response.errorCode = none ∧
    (login (some u) pol verify pw ip em now att).response.errorCode = none ∧
    (login none pol verify pw₂ ip₂ em₂ now₂ att₂).response.message =
      "Invalid email or password" ∧
    (login (some u) pol verify pw ip em now att).response.message =
      "Invalid email or password. " ++
        toString (pol.max_failed_login_attempts - (u.failed_login_attempts + 1)) ++
        " attempts remaining." ∧
    (login none pol verify pw₂ ip₂ em₂ now₂ att₂).response.message ≠
      (login (some u) pol verify pw ip em now att).response.message := by
  have hA := login_unknown_email pol verify pw₂ ip₂ em₂ now₂ att₂
  have hB := (login_not_locked u pol verify pw ip em now att hlock).trans
    (login_after_lock_wrong_below u pol verify pw ip em now att (Or.inr hver)
      hwrong hbelow)
  rw [hA, hB]
  exact ⟨rfl, rfl, rfl, rfl, rfl, rfl, rfl, rfl, rfl, rfl,
    invalid_message_append_ne _⟩

/-- C1 witness: the amended statement, instantiated at the sample account
with a wrong password and a fresh email. -/
theorem C1_enumeration_witness :
    (login none samplePolicy sampleVerify "guess" "8.8.8.8" "ghost@example.com" 0
      []).response.message ≠
    (login (some sampleUser) samplePolicy sampleVerify "guess" "8.8.8.8"
      "person@example.com" 0 []).response.message :=
  (C1_enumeration_status_shape sampleUser samplePolicy sampleVerify "guess" "guess"
    "8.8.8.8" "8.8.8.8" "person@example.com" "ghost@example.com" 0 0 [] []
    rfl rfl (by decide) (by decide)).2.2.2.2.2.2.2.2.2.2

/-! ## C3 — login-attempt recording -/

/-- C3 counterexample: a login attempt against a locked account (lock not yet
elapsed) writes no login-attempt record at all — the table stays empty —
contradicting the claim that exactly one record is written on every request
that reaches the handler. -/
theorem C3_attempt_counterexample :
    (login (some lockedSampleUser) samplePolicy sampleVerify "stored-hash" "9.9.9.9"
      "person@example.com" 10 []).attempts = [] := by
  decide

/-- C3 (amended): exactly one login-attempt record (source IP, attempted
email, success flag) is written on the unknown-email, wrong-password-below-
threshold, and successful paths; no record at all is written on a locked
denial, an unverified denial, or the wrong-password attempt that triggers the
lock transition. -/
theorem C3_attempt_recording (u : User) (pol : LoginPolicy)
    (verify : String → String → Bool) (pw ip em : String) (now : Nat)
    (att : List AttemptRecord) :
    ((login none pol verify pw ip em now att).attempts = att ++ [⟨ip, em, false⟩]) ∧
    (u.is_locked = true →
      should_auto_unlock u pol.account_lockout_duration_minutes now = false →
      (login (some u) pol verify pw ip em now att).attempts = att) ∧
    (u.is_locked = false → pol.email_verification_required = true →
      u.is_verified = false →
      (login (some u) pol verify pw ip em now att).attempts = att) ∧
    (u.is_locked = false →
      (pol.email_verification_required = false ∨ u.is_verified = true) →
      verify pw u.password = false →
      pol.max_failed_login_attempts ≤ u.failed_login_attempts + 1 →
      (login (some u) pol verify pw ip em now att).attempts = att) ∧
    (u.is_locked = false →
      (pol.email_verification_required = false ∨ u.is_verified = true) →
      verify pw u.password = false →
      u.failed_login_attempts + 1 < pol.max_failed_login_attempts →
      (login (some u) pol verify pw ip em now att).attempts =
        att ++ [⟨ip, em, false⟩]) ∧
    (u.is_locked = false →
      (pol.email_verification_required = false ∨ u.is_verified = true) →
      verify pw u.password = true →
      (login (some u) pol verify pw ip em now att).attempts =
        att ++ [⟨ip, em, true⟩]) := by
  refine ⟨?_, ?_, ?_, ?_, ?_, ?_⟩
  · rw [login_unknown_email]
  · intro hlock hnoul
    rw [login_locked_denied u pol verify pw ip em now att hlock hnoul]
  · intro hlock hreq hunv
    rw [login_not_locked u pol verify pw ip em now att hlock,
      login_after_lock_unverified u pol verify pw ip em now att hreq hunv]
  · intro hlock hgate hwrong hge
    rw [login_not_locked u pol verify pw ip em now att hlock,
      login_after_lock_wrong_locks u pol verify pw ip em now att hgate hwrong hge]
  · intro hlock hgate hwrong hbelow
    rw [login_not_locked u pol verify pw ip em now att hlock,
      login_after_lock_wrong_below u pol verify pw ip em now att hgate hwrong hbelow]
  · intro hlock hgate hright
    rw [login_not_locked u pol verify pw ip em now att hlock,
      login_after_lock_success u pol verify pw ip em now att hgate hright]

/-- C3 witness: the amended statement instantiated on the unverified-denial
path, which leaves the attempt table untouched. -/
theorem C3_attempt_recording_witness :
    (login (some { sampleUser with is_verified := false }) samplePolicy sampleVerify
      "stored-hash" "7.7.7.7" "person@example.com" 0 []).attempts = [] :=
  (C3_attempt_recording { sampleUser with is_verified := false } samplePolicy
    sampleVerify "stored-hash" "7.7.7.7" "person@example.com" 0 []).2.2.1 rfl rfl rfl

/-! ## C4 — fixed check order: lockout, then verification, then credential -/

/-- C4: the lockout check runs first (a locked, non-elapsed account gets the
lock denial whatever its verification state or the password), the
verification check runs second (an unlocked unverified account gets the
verification denial whatever the password), and the auto-unlock evaluation
precedes the credential check: a locked account whose lockout duration has
elapsed is unlocked with its counter reset within the same request, and a
correct password on that request succeeds immediately. -/
theorem C4_check_order (u : User) (pol : LoginPolicy)
    (verify : String → String → Bool) (pw ip em : String) (now : Nat)
    (att : List AttemptRecord) :
    (u.is_locked = true →
      should_auto_unlock u pol.account_lockout_duration_minutes now = false →
      (login (some u) pol verify pw ip em now att).response.statusCode = 403 ∧
      (login (some u) pol verify pw ip em now att).response.message =
        (if pol.account_lockout_duration_minutes = 0 then
          "Account is permanently locked. Contact support."
        else
          "Account is locked due to too many failed login attempts. Try again later.")) ∧
    (u.is_locked = false → pol.email_verification_required = true →
      u.is_verified = false →
      (login (some u) pol verify pw ip em now att).response =
        error_response "Account is not verified. Please verify your email and phone."
          403 none none) ∧
    (u.is_locked = true →
      should_auto_unlock u pol.account_lockout_duration_minutes now = true →
      (pol.email_verification_required = false ∨ u.is_verified = true) →
      verify pw u.password = true →
      (login (some u) pol verify pw ip em now att).response.statusCode = 200 ∧
      (login (some u) pol verify pw ip em now att).user = some (unlock_account u) ∧
      (login (some u) pol verify pw ip em now att).attempts =
        att ++ [⟨ip, em, true⟩]) := by
  refine ⟨?_, ?_, ?_⟩
  · intro hlock hnoul
    rw [login_locked_denied u pol verify pw ip em now att hlock hnoul]
    exact ⟨rfl, rfl⟩
  · intro hlock hreq hunv
    rw [login_not_locked u pol verify pw ip em now att hlock,
      login_after_lock_unverified u pol verify pw ip em now att hreq hunv]
  · intro hlock hul hgate hright
    rw [login_auto_unlock u pol verify pw ip em now att hlock hul,
      login_after_lock_success (unlock_account u) pol verify pw ip em now att
        hgate hright]
    exact ⟨rfl, rfl, rfl⟩

/-- C4 witness: the account locked at minute 0 under a 30-minute policy,
retried with the correct password at minute 31: unlocked, counter reset,
immediate success. -/
theorem C4_check_order_witness :
    (login (some lockedSampleUser) samplePolicy sampleVerify "stored-hash" "8.8.8.8"
      "person@example.com" 31 []).response.statusCode = 200 ∧
    (login (some lockedSampleUser) samplePolicy sampleVerify "stored-hash" "8.8.8.8"
      "person@example.com" 31 []).user = some (unlock_account lockedSampleUser) ∧
    (login (some lockedSampleUser) samplePolicy sampleVerify "stored-hash" "8.8.8.8"
      "person@example.com" 31 []).attempts =
      [⟨"8.8.8.8", "person@example.com", true⟩] :=
  (C4_check_order lockedSampleUser samplePolicy sampleVerify "stored-hash" "8.8.8.8"
    "person@example.com" 31 []).2.2 rfl (by decide) (Or.inr rfl) (by decide)

/-! ## C5 — failed-attempt counter and lockout transition -/

/-- C5: a wrong password against a verified, unlocked account increments the
failed-attempt counter; if the post-increment counter reaches the configured
threshold, the account transitions to Locked (lock flag set, `locked_at`
stamped) with a 403; otherwise the 401 denial states the remaining attempts,
computed as threshold minus the post-increment counter. -/
theorem C5_failed_attempt_policy (u : User) (pol : LoginPolicy)
    (verify : String → String → Bool) (pw ip em : String) (now : Nat)
    (att : List AttemptRecord)
    (hlock : u.is_locked = false) (hver : u.is_verified = true)
    (hwrong : verify pw u.password = false) :
    (pol.max_failed_login_attempts ≤ u.failed_login_attempts + 1 →
      (login (some u) pol verify pw ip em now att).user =
        some { u with failed_login_attempts := u.failed_login_attempts + 1,
                      is_locked := true, locked_at := some now } ∧
      (login (some u) pol verify pw ip em now att).response.statusCode = 403) ∧
    (u.failed_login_attempts + 1 < pol.max_failed_login_attempts →
      (login (some u) pol verify pw ip em now att).user =
        some { u with failed_login_attempts := u.failed_login_attempts + 1 } ∧
      (login (some u) pol verify pw ip em now att).response =
        error_response
          ("Invalid email or password. " ++
            toString (pol.max_failed_login_attempts - (u.failed_login_attempts + 1)) ++
            " attempts remaining.") 401 none none) := by
  constructor
  · intro hge
    rw [login_not_locked u pol verify pw ip em now att hlock,
      login_after_lock_wrong_locks u pol verify pw ip em now att (Or.inr hver)
        hwrong hge]
    exact ⟨rfl, rfl⟩
  · intro hbelow
    rw [login_not_locked u pol verify pw ip em now att hlock,
      login_after_lock_wrong_below u pol verify pw ip em now att (Or.inr hver)
        hwrong hbelow]
    exact ⟨rfl, rfl⟩

/-- C5 witness: the first wrong password against the sample account yields
counter 1 and the 4-attempts-remaining denial; a wrong password at counter 4
locks the account with `locked_at` stamped. -/
theorem C5_failed_attempt_witness :
    (login (some sampleUser) samplePolicy sampleVerify "guess" "8.8.8.8"
      "person@example.com" 0 []).user =
      some { sampleUser with failed_login_attempts := 1 } ∧
    (login (some sampleUser) samplePolicy sampleVerify "guess" "8.8.8.8"
      "person@example.com" 0 []).response =
      error_response
        ("Invalid email or password. " ++ toString (5 - 1) ++ " attempts remaining.")
        401 none none ∧
    (login (some { sampleUser with failed_login_attempts := 4 }) samplePolicy
      sampleVerify "guess" "8.8.8.8" "person@example.com" 7 []).user =
      some { sampleUser with
              failed_login_attempts := 5, is_locked := true, locked_at := some 7 } := by
  have h1 := (C5_failed_attempt_policy sampleUser samplePolicy sampleVerify "guess"
    "8.8.8.8" "person@example.com" 0 [] rfl rfl (by decide)).2 (by decide)
  have h2 := (C5_failed_attempt_policy { sampleUser with failed_login_attempts := 4 }
    samplePolicy sampleVerify "guess" "8.8.8.8" "person@example.com" 7 [] rfl rfl
    (by decide)).1 (by decide)
  exact ⟨h1.1, h1.2, h2.1⟩

/-! ## C6 — permanent lock when the lockout duration is zero -/

/-- C6: with `account_lockout_duration_minutes = 0`, a locked account never
auto-unlocks: every later login attempt, at any time and with any password,
is denied 403 with the contact-support message and the login leaves the
account row and the attempt table unchanged. -/
theorem C6_permanent_lock_denial (u : User) (pol : LoginPolicy)
    (verify : String → String → Bool) (pw ip em : String) (now : Nat)
    (att : List AttemptRecord)
    (hdur : pol.account_lockout_duration_minutes = 0) (hlock : u.is_locked = true) :
    login (some u) pol verify pw ip em now att =
      { user := some u, attempts := att,
        response := error_response "Account is permanently locked. Contact support."
          403 none none } := by
  have hnoul : should_auto_unlock u pol.account_lockout_duration_minutes now = false := by
    simp [should_auto_unlock, hdur]
  rw [login_locked_denied u pol verify pw ip em now att hlock hnoul, if_pos hdur]

/-- C6 witness: the locked sample account under the permanent policy, probed
with the correct password far in the future, is still denied with the
contact-support message and unchanged state. -/
theorem C6_permanent_lock_witness :
    login (some lockedSampleUser) permanentPolicy sampleVerify "stored-hash"
      "8.8.8.8" "person@example.com" 999999 [] =
      { user := some lockedSampleUser, attempts := [],
        response := error_response "Account is permanently locked. Contact support."
          403 none none } :=
  C6_permanent_lock_denial lockedSampleUser permanentPolicy sampleVerify
    "stored-hash" "8.8.8.8" "person@example.com" 999999 [] rfl rfl
